import Mathlib

/-!
Shallow embedding of the operator execution core of the tomviz repository
(`src/tomviz/OperatorPython.cxx`): the `OperatorPython` class state, its
`setScript`, `setJSONDescription`, `applyTransform`, `serialize` and
`deserialize` member functions, modelled as pure state transformers that also
return the list of observable side effects (log messages, Qt signal emissions,
interpreter interactions) in the order the code performs them.

Interpreter-dependent outcomes (whether a script text compiles, whether the
resulting module executes, whether it defines the entry-point function, the
result of the `is_cancelable` query) are abstracted into a `PyEnv` record of
functions of the script text, since the embedded interpreter is external to
the repository.
-/

set_option autoImplicit false

namespace Tomviz

/-- Outcomes of the embedded-interpreter interactions performed by
`OperatorPython::setScript`, as functions of the script text:
`compiles` models `Py_CompileString` succeeding, `execOk` models
`PyImport_ExecCodeModule` succeeding, `hasTransform` models the
`find_transform_scalars` lookup succeeding, and `isCancelable` models the
`is_cancelable` call (`none` when the call itself fails, `some b` when it
returns a truth value `b`). -/
structure PyEnv where
  compiles : String → Bool
  execOk : String → Bool
  hasTransform : String → Bool
  isCancelable : String → Option Bool

/-- One Result slot of the base `Operator` class, as configured by
`setNumberOfResults` / `OperatorResult::setName` / `OperatorResult::setLabel`.
Modelled from the spec: the base-class `OperatorResult` objects are not under
`src/`; per the spec each slot carries a name/label pair, initially empty. -/
structure ResultSlot where
  name : Option String
  label : Option String
deriving DecidableEq, Repr

/-- The slot produced by `setNumberOfResults` before the descriptor loop
assigns names and labels (both halves unset). -/
def emptySlot : ResultSlot := ResultSlot.mk none none

/-- Observable side effects of the member functions, in program order:
interpreter interactions, `qCritical` log messages (one constructor per
distinct diagnostic in the source) and Qt signal emissions. -/
inductive Event where
  | compileAttempt (text : String)
  | execModuleAttempt (text : String)
  | findTransformAttempt
  | isCancelableAttempt
  | logInvalidScript
  | logFailedCreateModule
  | logNoTransformFunction
  | logIsCancelableError
  | transformModified
  | labelModified
  | logJsonParseFail
  | warnMultipleChildren (found : Nat)
  | logNoChildName
  | logNoChildLabel
  | logNoResultNamed (name : String)
  | logNotDataObject (name : String)
  | logNoChildInDict (name : String)
  | newOperatorResult (name : String)
  | newChildDataSource (label : String)
  | logFailedExecScript
  | logDictRepr
deriving DecidableEq, Repr

/-- The state of one `OperatorPython` instance: the `Script`, `Label` and
`jsonDescription` strings, the `OPInternals` smart pointers (`Code`,
`TransformModule`, `TransformMethod`, each `none` when null, `some t` when
bound from script text `t`; `operatorModule` records whether the
`tomviz.utils` import in the constructor succeeded), the base-class
`supportsCancel` flag, the `m_resultNames` list, the base-class Result slots,
`m_childDataSourceNamesAndLabels` and the base-class `hasChildDataSource`
flag. -/
structure OpState where
  label : String
  script : String
  jsonDescription : String
  operatorModule : Bool
  code : Option String
  transformModule : Option String
  transformMethod : Option String
  supportsCancel : Bool
  resultNames : List String
  results : List ResultSlot
  childPairs : List (String × String)
  hasChildDataSource : Bool
deriving DecidableEq, Repr

/-- The state after the `OperatorPython` constructor in the normal case where
the `tomviz.utils` import succeeds: label `"Python Operator"`, everything else
empty/unbound. The base-class flags start `false` (modelled from the spec:
the base `Operator` class is not under `src/`). -/
def initState : OpState :=
  { label := "Python Operator"
    script := ""
    jsonDescription := ""
    operatorModule := true
    code := none
    transformModule := none
    transformMethod := none
    supportsCancel := false
    resultNames := []
    results := []
    childPairs := []
    hasChildDataSource := false }

/-- `OperatorPython::setLabel`: store the text and emit `labelModified`. -/
def setLabel (txt : String) (s : OpState) : OpState × List Event :=
  ({ s with label := txt }, [Event.labelModified])

/-- `OperatorPython::setScript` (OperatorPython.cxx lines 264-348).
The body runs only when the new text differs from the stored `Script`; it
first stores the text and nulls `Code`, `TransformModule` and
`TransformMethod`, then compiles, executes the module, looks up the transform
entry point and queries `is_cancelable`, returning early (leaving the state
as built so far) at each failure, and on full success sets `supportsCancel`
and emits `transformModified`. -/
def setScript (env : PyEnv) (str : String) (s : OpState) : OpState × List Event :=
  if s.script = str then (s, [])
  else
    let s1 : OpState :=
      { s with script := str, code := none, transformModule := none,
               transformMethod := none }
    let ev1 : List Event := [Event.compileAttempt str]
    if env.compiles str = false then
      (s1, ev1 ++ [Event.logInvalidScript])
    else
      let s2 : OpState := { s1 with code := some str }
      let ev2 : List Event := ev1 ++ [Event.execModuleAttempt str]
      if env.execOk str = false then
        (s2, ev2 ++ [Event.logFailedCreateModule])
      else
        let s3 : OpState := { s2 with transformModule := some str }
        let ev3 : List Event := ev2 ++ [Event.findTransformAttempt]
        if env.hasTransform str = false then
          (s3, ev3 ++ [Event.logNoTransformFunction])
        else
          let s4 : OpState := { s3 with transformMethod := some str }
          let ev4 : List Event := ev3 ++ [Event.isCancelableAttempt]
          match env.isCancelable str with
          | none => (s4, ev4 ++ [Event.logIsCancelableError])
          | some b =>
            ({ s4 with supportsCancel := b },
             ev4 ++ [Event.transformModified])

/-- A JSON object entry of the `results` or `children` arrays, retaining only
the fields the source consults: `name` and `label`, each `none` when the
corresponding `Json::Value` lookup `isNull()`. -/
structure JEntry where
  name : Option String
  label : Option String
deriving DecidableEq, Repr

/-- A successfully parsed operator JSON document, retaining only the nodes
the source consults: the `label` node, the `results` array and the `children`
array, each `none` when `isNull()`. -/
structure JDoc where
  label : Option String
  results : Option (List JEntry)
  children : Option (List JEntry)
deriving DecidableEq, Repr

/-- The body of the results loop of `setJSONDescription` for one slot: set
the slot name when the entry's `name` node is non-null, then the slot label
when its `label` node is non-null. -/
def applyEntry (slot : ResultSlot) (e : JEntry) : ResultSlot :=
  let slot1 := match e.name with
    | some n => { slot with name := some n }
    | none => slot
  match e.label with
  | some l => { slot1 with label := some l }
  | none => slot1

/-- The results loop of `setJSONDescription` (lines 217-231): walk the slots
created by `setNumberOfResults` in step with the `results` entries, applying
each entry to its slot and appending each non-null `name` to
`m_resultNames`. -/
def fillSlots : List ResultSlot → List JEntry → List ResultSlot × List String
  | slots, [] => (slots, [])
  | [], _ => ([], [])
  | slot :: slots, e :: es =>
    let filled := applyEntry slot e
    let rest := fillSlots slots es
    match e.name with
    | some n => (filled :: rest.1, n :: rest.2)
    | none => (filled :: rest.1, rest.2)

/-- The `m_childDataSourceNamesAndLabels` entry installed for the first
`children` entry: the (name, label) pair when both nodes are non-null, else
nothing. -/
def childPairsOf (e : JEntry) : List (String × String) :=
  match e.name, e.label with
  | some n, some l => [(n, l)]
  | _, _ => []

/-- The diagnostics the child-dataset block logs for the first `children`
entry: nothing when both nodes are non-null, else the missing-name error,
else the missing-label error (lines 246-254). -/
def childEvents (e : JEntry) : List Event :=
  match e.name, e.label with
  | some _, some _ => []
  | none, _ => [Event.logNoChildName]
  | some _, none => [Event.logNoChildLabel]

/-- `OperatorPython::setJSONDescription` (OperatorPython.cxx lines 185-257).
A textually identical document is a no-op; the text is stored before parsing;
a parse failure logs and returns; otherwise the `label` node (if non-null)
updates the label, `m_resultNames` and `m_childDataSourceNamesAndLabels` are
cleared, the `results` array (if non-null) rebuilds the Result slots, and the
`children` array (if non-null) logs a warning carrying its size when that
size differs from 1 and, when non-empty, sets `hasChildDataSource` and then
validates entry 0's name and label. The `parsed` argument is the outcome of
`Json::Reader::parse` on `str` (`none` on malformed JSON). -/
def setJSONDescription (str : String) (parsed : Option JDoc) (s : OpState) :
    OpState × List Event :=
  if s.jsonDescription = str then (s, [])
  else
    let s0 : OpState := { s with jsonDescription := str }
    match parsed with
    | none => (s0, [Event.logJsonParseFail])
    | some root =>
      let lstep : OpState × List Event := match root.label with
        | some l => ({ s0 with label := l }, [Event.labelModified])
        | none => (s0, [])
      let s1 : OpState := { lstep.1 with resultNames := [], childPairs := [] }
      let s2 : OpState := match root.results with
        | none => s1
        | some rs =>
          let filled := fillSlots (List.replicate rs.length emptySlot) rs
          { s1 with results := filled.1, resultNames := filled.2 }
      match root.children with
      | none => (s2, lstep.2)
      | some cs =>
        let evW : List Event :=
          if cs.length ≠ 1 then [Event.warnMultipleChildren cs.length] else []
        match cs with
        | [] => (s2, lstep.2 ++ evW)
        | c0 :: _ =>
          ({ s2 with hasChildDataSource := true, childPairs := childPairsOf c0 },
           lstep.2 ++ evW ++ childEvents c0)

/-- One entry of the dictionary returned by the transform method: either a
Python object wrapping a `vtkDataObject` (identified by `id`), or some other
object, for which the `vtkDataObject::SafeDownCast` in the source yields
null. -/
inductive DictEntry where
  | dataObject (id : Nat)
  | notDataObject
deriving DecidableEq, Repr

/-- The value produced by `PyObject_Call` on the transform method: `failure`
when the call returns null (script raised), `nonDict` for a returned value
failing `PyDict_Check`, `dict d` for a returned dictionary with entries
`d`. -/
inductive CallResult where
  | failure
  | nonDict
  | dict (d : List (String × DictEntry))
deriving DecidableEq, Repr

/-- `PyDict_GetItemString`: first entry with the given key, if any. -/
def lookupDict (d : List (String × DictEntry)) (n : String) : Option DictEntry :=
  match d with
  | [] => none
  | p :: rest => if p.1 = n then some p.2 else lookupDict rest n

/-- The body of the results loop of `applyTransform` (lines 392-416) for one
declared name: a missing-name error when absent from the dictionary, the
`newOperatorResult` signal emission when present as a data object, the
not-a-data-object error otherwise. -/
def processResult (d : List (String × DictEntry)) (name : String) : List Event :=
  match lookupDict d name with
  | none => [Event.logNoResultNamed name]
  | some (DictEntry.dataObject _) => [Event.newOperatorResult name]
  | some DictEntry.notDataObject => [Event.logNotDataObject name]

/-- The body of the child-data-source loop of `applyTransform` (lines
419-443) for one (name, label) pair: a missing-name error when absent, the
`newChildDataSource` signal emission when present as a data object, and
silence otherwise (the source has no else branch after the downcast). -/
def processChild (d : List (String × DictEntry)) (p : String × String) :
    List Event :=
  match lookupDict d p.1 with
  | none => [Event.logNoChildInDict p.1]
  | some (DictEntry.dataObject _) => [Event.newChildDataSource p.2]
  | some DictEntry.notDataObject => []

/-- Whether the results loop sets `errorEncountered`: some declared name is
absent from the dictionary (only the missing-name branch sets the flag). -/
def resultErr (d : List (String × DictEntry)) (names : List String) : Bool :=
  names.any fun n => (lookupDict d n).isNone

/-- Whether the child loop sets `errorEncountered`: some declared child name
is absent from the dictionary. -/
def childErr (d : List (String × DictEntry)) (pairs : List (String × String)) :
    Bool :=
  pairs.any fun p => (lookupDict d p.1).isNone

/-- `OperatorPython::applyTransform` (OperatorPython.cxx lines 350-458).
Returns `true` immediately when `Script` is empty, or when the
`tomviz.utils` module or the transform method is unbound; fails with a log
message when the call itself returns null; otherwise, for a dictionary
return value, runs the results loop over `m_resultNames`, the child loop
over `m_childDataSourceNamesAndLabels`, dumps the dictionary representation
when a name was missing, and reports success (the final `CheckForError` is
false: none of the per-name branches leaves a pending interpreter error).
The `callRes` argument is the outcome the interpreter produces for the
bound transform method on the given data. -/
def applyTransform (s : OpState) (callRes : CallResult) : Bool × List Event :=
  if s.script = "" then (true, [])
  else if s.operatorModule = false ∨ s.transformMethod = none then (true, [])
  else
    match callRes with
    | CallResult.failure => (false, [Event.logFailedExecScript])
    | CallResult.nonDict => (true, [])
    | CallResult.dict d =>
      let revents := s.resultNames.flatMap (processResult d)
      let cevents := s.childPairs.flatMap (processChild d)
      let errEnc := resultErr d s.resultNames || childErr d s.childPairs
      (true,
       revents ++ cevents ++ (if errEnc then [Event.logDictRepr] else []))

/-- The XML node written by `serialize`: the two string attributes. -/
structure XmlNode where
  label : String
  script : String
deriving DecidableEq, Repr

/-- `OperatorPython::serialize` (lines 469-474): append the `label` and
`script` attributes from the current state. -/
def serialize (s : OpState) : XmlNode :=
  XmlNode.mk s.label s.script

/-- `OperatorPython::deserialize` (lines 476-481): `setLabel` from the
`label` attribute, then `setScript` from the `script` attribute. -/
def deserialize (env : PyEnv) (n : XmlNode) (s : OpState) :
    OpState × List Event :=
  let st1 := setLabel n.label s
  let st2 := setScript env n.script st1.1
  (st2.1, st1.2 ++ st2.2)

/-! ## Helper lemmas -/

/-- After any `setScript` call the stored script text equals the argument:
the text is stored before compilation in every branch of the body, and the
short-circuit branch only fires when it is already equal. -/
theorem setScript_script (env : PyEnv) (str : String) (s : OpState) :
    ((setScript env str s).1).script = str := by
  unfold setScript
  split
  · next h => exact h
  · dsimp only
    split
    · rfl
    · split
      · rfl
      · split
        · rfl
        · split <;> rfl

/-- `setScript` never touches the label. -/
theorem setScript_label (env : PyEnv) (str : String) (s : OpState) :
    ((setScript env str s).1).label = s.label := by
  unfold setScript
  split
  · rfl
  · dsimp only
    split
    · rfl
    · split
      · rfl
      · split
        · rfl
        · split <;> rfl

/-- Applying a descriptor entry to a fresh empty slot yields exactly the
entry fields (a missing half stays unset). -/
theorem applyEntry_empty (e : JEntry) :
    applyEntry emptySlot e = ResultSlot.mk e.name e.label := by
  rcases e with ⟨n, l⟩
  cases n <;> cases l <;> rfl

/-- The results loop, started from the slots freshly created by
`setNumberOfResults`, produces one slot per entry in order, carrying the
entry fields, and collects the non-null names in order. -/
theorem fillSlots_replicate (rs : List JEntry) :
    fillSlots (List.replicate rs.length emptySlot) rs =
      (rs.map (fun e => ResultSlot.mk e.name e.label), rs.filterMap JEntry.name) := by
  induction rs with
  | nil => rfl
  | cons e es ih =>
    rcases he : e.name with _ | n <;>
      simp [List.replicate_succ, fillSlots, ih, applyEntry_empty, he,
            List.filterMap_cons]

/-- When the script text is nonempty and the module and transform method are
bound, `applyTransform` on a returned dictionary runs the two extraction
loops and reports success. -/
theorem applyTransform_dict_eq (s : OpState) (d : List (String × DictEntry))
    (h1 : s.script ≠ "") (h2 : s.operatorModule = true)
    (h3 : s.transformMethod ≠ none) :
    applyTransform s (CallResult.dict d) =
      (true,
       s.resultNames.flatMap (processResult d) ++
         s.childPairs.flatMap (processChild d) ++
         (if resultErr d s.resultNames || childErr d s.childPairs then
            [Event.logDictRepr]
          else [])) := by
  unfold applyTransform
  rw [if_neg h1, if_neg (by simp [h2, h3])]

/-- A per-name missing-result error is logged for every declared name absent
from the returned dictionary. -/
theorem mem_processResult_of_missing (d : List (String × DictEntry))
    (names : List String) (n : String) (hn : n ∈ names)
    (hl : lookupDict d n = none) :
    Event.logNoResultNamed n ∈ names.flatMap (processResult d) := by
  rw [List.mem_flatMap]
  exact ⟨n, hn, by simp [processResult, hl]⟩

/-- The results loop never emits the `newOperatorResult` signal for a name
absent from the returned dictionary. -/
theorem newOperatorResult_not_mem_of_missing (d : List (String × DictEntry))
    (names : List String) (n : String) (hl : lookupDict d n = none) :
    Event.newOperatorResult n ∉ names.flatMap (processResult d) := by
  rw [List.mem_flatMap]
  rintro ⟨m, _, hmem⟩
  unfold processResult at hmem
  rcases hm : lookupDict d m with _ | e
  · rw [hm] at hmem
    simp at hmem
  · rw [hm] at hmem
    rcases e with i | _
    · simp at hmem
      rw [hmem] at hl
      rw [hl] at hm
      exact Option.noConfusion hm
    · simp at hmem

/-- The child loop emits only missing-child errors and `newChildDataSource`
signals, never a `newOperatorResult` signal. -/
theorem newOperatorResult_not_mem_children (d : List (String × DictEntry))
    (pairs : List (String × String)) (n : String) :
    Event.newOperatorResult n ∉ pairs.flatMap (processChild d) := by
  rw [List.mem_flatMap]
  rintro ⟨p, _, hmem⟩
  unfold processChild at hmem
  rcases hm : lookupDict d p.1 with _ | e
  · rw [hm] at hmem
    simp at hmem
  · rw [hm] at hmem
    rcases e with i | _ <;> simp at hmem

/-- The `newOperatorResult` signal is emitted for every declared name present
in the returned dictionary as a data object, regardless of failures on the
other names. -/
theorem mem_processResult_of_present (d : List (String × DictEntry))
    (names : List String) (m : String) (i : Nat) (hm : m ∈ names)
    (hl : lookupDict d m = some (DictEntry.dataObject i)) :
    Event.newOperatorResult m ∈ names.flatMap (processResult d) := by
  rw [List.mem_flatMap]
  exact ⟨m, hm, by simp [processResult, hl]⟩

/-! ## Concrete interpreter environments for witnesses and counterexamples -/

/-- An interpreter in which exactly the text `"good"` compiles, modules
execute, the entry point exists and `is_cancelable` answers `false`. -/
def envGood : PyEnv :=
  PyEnv.mk (fun t => t = ("good")) (fun _ => true) (fun _ => true)
    (fun _ => some false)

/-- An interpreter in which every text compiles and executes but no module
defines the transform entry point. -/
def envNoEntry : PyEnv :=
  PyEnv.mk (fun _ => true) (fun _ => true) (fun _ => false)
    (fun _ => some false)

/-! ## Claim theorems -/

/-- Claim C1, counterexample: on an operator holding a valid Compiled Script (built
from the text `"good"`), `setScript` with a text that fails to compile does
NOT leave the previously-valid Compiled Script in place: the transform
method, module and code object were bound before the call and are all null
after it, because `setScript` nulls them before attempting compilation. -/
theorem setScript_compileFail_keepsOld_cex :
    ((setScript envGood ("good") initState).1).transformMethod = some ("good") ∧
    ((setScript envGood ("good") initState).1).transformModule = some ("good") ∧
    ((setScript envGood ("good") initState).1).code = some ("good") ∧
    envGood.compiles ("bad") = false ∧
    ((setScript envGood ("bad")
        ((setScript envGood ("good") initState).1)).1).transformMethod ≠
      some ("good") := by
  decide

/-- Claim C1, amended: for every script text that fails to compile (and differs
from the stored text, so the body runs), `setScript` discards any previously
bound Compiled Script and leaves the operator unbound — code object, module
and transform method are all null after the call — and the call returns
normally after logging the invalid-script diagnostic (no crash). -/
theorem setScript_compileFail_unbinds (env : PyEnv) (t : String) (s : OpState)
    (hne : s.script ≠ t) (hc : env.compiles t = false) :
    ((setScript env t s).1).code = none ∧
    ((setScript env t s).1).transformModule = none ∧
    ((setScript env t s).1).transformMethod = none ∧
    (setScript env t s).2 = [Event.compileAttempt t, Event.logInvalidScript] := by
  unfold setScript
  rw [if_neg (fun h => hne h), if_pos hc]
  exact ⟨rfl, rfl, rfl, rfl⟩

/-- Claim C1, witness: the amended theorem at the concrete input `"bad"` on the
freshly constructed operator under `envGood`. -/
theorem setScript_compileFail_unbinds_witness :
    ((setScript envGood ("bad") initState).1).code = none ∧
    ((setScript envGood ("bad") initState).1).transformModule = none ∧
    ((setScript envGood ("bad") initState).1).transformMethod = none ∧
    (setScript envGood ("bad") initState).2 =
      [Event.compileAttempt ("bad"), Event.logInvalidScript] :=
  setScript_compileFail_unbinds envGood ("bad") initState (by decide) (by decide)

/-- Claim C2, counterexample: after `setScript` of a non-empty syntax-erroneous
text on a fresh operator (so the script text is stored but no transform
method is bound), a subsequent `applyTransform` DOES report plain success:
it returns `true` with no side effects, via the unbound-method guard — it
does not surface that no valid transform exists. -/
theorem applyTransform_afterCompileFail_cex :
    ((setScript envGood ("bad") initState).1).script ≠ ("") ∧
    ((setScript envGood ("bad") initState).1).transformMethod = none ∧
    applyTransform ((setScript envGood ("bad") initState).1)
        CallResult.nonDict = (true, []) := by
  decide

/-- Claim C2, amended: whenever the stored script text is non-empty but no
transform method is bound (as after a failed `setScript` of non-empty text),
`applyTransform` returns success with no side effects via the unbound-method
guard — the no-op success path is not restricted to never-set script text,
and no diagnostic is surfaced. -/
theorem applyTransform_unboundMethod_success (s : OpState)
    (callRes : CallResult) (h1 : s.script ≠ "")
    (hm : s.transformMethod = none) :
    applyTransform s callRes = (true, []) := by
  unfold applyTransform
  rw [if_neg h1, if_pos (Or.inr hm)]

/-- Claim C2, witness: the amended theorem at the concrete state reached by a
failed `setScript ("bad")` from the fresh operator. -/
theorem applyTransform_unboundMethod_success_witness :
    applyTransform ((setScript envGood ("bad") initState).1)
        CallResult.nonDict = (true, []) :=
  applyTransform_unboundMethod_success
    ((setScript envGood ("bad") initState).1) CallResult.nonDict
    (by decide) (by decide)

/-- Claim C5: re-setting the script text to the identical value is a no-op: the
second `setScript` call with the same text returns the state unchanged with
an empty effect list — no compilation, module import, entry-point lookup or
notification occurs. -/
theorem setScript_idempotent (env : PyEnv) (t : String) (s : OpState) :
    setScript env t ((setScript env t s).1) = ((setScript env t s).1, []) := by
  have h : ((setScript env t s).1).script = t := setScript_script env t s
  generalize (setScript env t s).1 = s1 at h
  unfold setScript
  rw [if_pos h]

/-- Claim C8: for every script text that compiles and whose module executes but
which lacks the transform entry point, `setScript` fails at binding with the
missing-entry-point diagnostic — distinct from the invalid-script (syntax
error) diagnostic, which is not logged — the transform method stays null,
and the `supportsCancel` flag keeps the value it had before the call. -/
theorem setScript_missingEntryPoint (env : PyEnv) (t : String) (s : OpState)
    (hne : s.script ≠ t) (hc : env.compiles t = true)
    (hex : env.execOk t = true) (hnt : env.hasTransform t = false) :
    ((setScript env t s).1).supportsCancel = s.supportsCancel ∧
    ((setScript env t s).1).transformMethod = none ∧
    Event.logNoTransformFunction ∈ (setScript env t s).2 ∧
    Event.logInvalidScript ∉ (setScript env t s).2 := by
  unfold setScript
  rw [if_neg (fun h => hne h), if_neg (by simp [hc]), if_neg (by simp [hex]),
      if_pos hnt]
  refine ⟨rfl, rfl, by simp, by simp⟩

/-- Claim C8, witness: the theorem at the concrete text `"noentry"` on the fresh
operator under an interpreter whose modules lack the entry point. -/
theorem setScript_missingEntryPoint_witness :
    ((setScript envNoEntry ("noentry") initState).1).supportsCancel =
      initState.supportsCancel ∧
    ((setScript envNoEntry ("noentry") initState).1).transformMethod = none ∧
    Event.logNoTransformFunction ∈ (setScript envNoEntry ("noentry") initState).2 ∧
    Event.logInvalidScript ∉ (setScript envNoEntry ("noentry") initState).2 :=
  setScript_missingEntryPoint envNoEntry ("noentry") initState (by decide)
    (by decide) (by decide) (by decide)

/-- Claim C9: deserializing the node produced by `serialize` restores exactly the
two persisted string attributes: the resulting operator's label and script
text equal those of the serialized operator, whatever state the receiving
operator was in and whatever the interpreter does with the script. -/
theorem serialize_deserialize_roundTrip (env : PyEnv) (x y : OpState) :
    ((deserialize env (serialize x) y).1).label = x.label ∧
    ((deserialize env (serialize x) y).1).script = x.script := by
  unfold deserialize serialize setLabel
  exact ⟨setScript_label env x.script _, setScript_script env x.script _⟩

/-- Claim C10: for every new script text that fails to compile, `setScript` stores
the text before attempting compilation, so after the failed call the script
accessor returns the invalid text and `serialize` persists it, even though
no code object or transform method is bound. -/
theorem setScript_compileFail_textStored (env : PyEnv) (t : String)
    (s : OpState) (hne : s.script ≠ t) (hc : env.compiles t = false) :
    ((setScript env t s).1).script = t ∧
    serialize ((setScript env t s).1) =
      XmlNode.mk (((setScript env t s).1).label) t ∧
    ((setScript env t s).1).code = none ∧
    ((setScript env t s).1).transformMethod = none := by
  unfold setScript serialize
  rw [if_neg (fun h => hne h), if_pos hc]
  exact ⟨rfl, rfl, rfl, rfl⟩

/-- Claim C10, witness: the theorem at the concrete failing text `"bad"` on the
fresh operator under `envGood`. -/
theorem setScript_compileFail_textStored_witness :
    ((setScript envGood ("bad") initState).1).script = ("bad") ∧
    serialize ((setScript envGood ("bad") initState).1) =
      XmlNode.mk (((setScript envGood ("bad") initState).1).label) ("bad") ∧
    ((setScript envGood ("bad") initState).1).code = none ∧
    ((setScript envGood ("bad") initState).1).transformMethod = none :=
  setScript_compileFail_textStored envGood ("bad") initState (by decide)
    (by decide)

/-- Claim C3: when the entry point returns a dictionary missing one or more
declared result names, the invocation still reports success; every missing
name gets a per-name error logged and no `newOperatorResult` signal, and
every declared name present as a data object still gets its
`newOperatorResult` signal (processing continues past the missing names). -/
theorem applyTransform_missingResults (s : OpState)
    (d : List (String × DictEntry)) (hscript : s.script ≠ "")
    (hmod : s.operatorModule = true) (hmeth : s.transformMethod ≠ none)
    (_hmiss : ∃ n, n ∈ s.resultNames ∧ lookupDict d n = none) :
    (applyTransform s (CallResult.dict d)).1 = true ∧
    (∀ n, n ∈ s.resultNames → lookupDict d n = none →
      Event.logNoResultNamed n ∈ (applyTransform s (CallResult.dict d)).2 ∧
      Event.newOperatorResult n ∉ (applyTransform s (CallResult.dict d)).2) ∧
    (∀ m i, m ∈ s.resultNames →
      lookupDict d m = some (DictEntry.dataObject i) →
      Event.newOperatorResult m ∈ (applyTransform s (CallResult.dict d)).2) := by
  rw [applyTransform_dict_eq s d hscript hmod hmeth]
  dsimp only
  refine ⟨rfl, ?_, ?_⟩
  · intro n hn hl
    constructor
    · simp only [List.mem_append]
      exact Or.inl (Or.inl (mem_processResult_of_missing d s.resultNames n hn hl))
    · simp only [List.mem_append]
      rintro ((h | h) | h)
      · exact newOperatorResult_not_mem_of_missing d s.resultNames n hl h
      · exact newOperatorResult_not_mem_children d s.childPairs n h
      · split at h <;> simp at h
  · intro m i hm hl
    simp only [List.mem_append]
    exact Or.inl (Or.inl (mem_processResult_of_present d s.resultNames m i hm hl))

/-- Claim C3, witness: Scenario C of the spec — one declared result `"hist"`, the
script returns an empty dictionary: the invocation reports success, the
missing-result error for `"hist"` is logged, and no `newOperatorResult`
signal is posted. -/
theorem applyTransform_missingResults_witness :
    (applyTransform
        { initState with script := ("s"), transformMethod := some ("s"),
                         resultNames := [("hist")] }
        (CallResult.dict [])).1 = true ∧
    Event.logNoResultNamed ("hist") ∈
      (applyTransform
        { initState with script := ("s"), transformMethod := some ("s"),
                         resultNames := [("hist")] }
        (CallResult.dict [])).2 ∧
    Event.newOperatorResult ("hist") ∉
      (applyTransform
        { initState with script := ("s"), transformMethod := some ("s"),
                         resultNames := [("hist")] }
        (CallResult.dict [])).2 := by
  have h := applyTransform_missingResults
    { initState with script := ("s"), transformMethod := some ("s"),
                     resultNames := [("hist")] }
    [] (by decide) (by decide) (by decide) ⟨("hist"), by decide, rfl⟩
  exact ⟨h.1, (h.2.1 ("hist") (by decide) rfl).1, (h.2.1 ("hist") (by decide) rfl).2⟩

/-- Claim C4, counterexample: a descriptor whose `children` entry at index 0 lacks
both `name` and `label` is rejected (the missing-name error is logged and no
(name, label) pair is installed) — but a child-dataset expectation IS
installed: `setHasChildDataSource(true)` has already run before the entry is
validated, so the operator does expect a child dataset after the call. -/
theorem setJSON_childMissingField_cex :
    ((setJSONDescription ("d")
        (some (JDoc.mk none none (some [JEntry.mk none none])))
        initState).1).hasChildDataSource = true ∧
    ((setJSONDescription ("d")
        (some (JDoc.mk none none (some [JEntry.mk none none])))
        initState).1).childPairs = [] ∧
    Event.logNoChildName ∈
      (setJSONDescription ("d")
        (some (JDoc.mk none none (some [JEntry.mk none none])))
        initState).2 := by
  decide

/-- Claim C4, amended: for a descriptor whose first `children` entry misses `name`
or `label`, `setJSONDescription` logs the corresponding error and installs
no (name, label) pair for the child dataset — but the `hasChildDataSource`
flag is nevertheless set to `true`, because the source sets it before
validating the entry, so the operator does expect a child dataset after the
call. -/
theorem setJSON_childMissingField (str : String) (root : JDoc) (c0 : JEntry)
    (rest : List JEntry) (s : OpState) (hne : s.jsonDescription ≠ str)
    (hch : root.children = some (c0 :: rest))
    (hmiss : c0.name = none ∨ c0.label = none) :
    ((setJSONDescription str (some root) s).1).childPairs = [] ∧
    ((setJSONDescription str (some root) s).1).hasChildDataSource = true ∧
    (c0.name = none →
      Event.logNoChildName ∈ (setJSONDescription str (some root) s).2) ∧
    (∀ n, c0.name = some n → c0.label = none →
      Event.logNoChildLabel ∈ (setJSONDescription str (some root) s).2) := by
  rcases root with ⟨lbl, res, ch⟩
  dsimp only at hch
  subst hch
  rcases c0 with ⟨cn, cl⟩
  unfold setJSONDescription
  rw [if_neg hne]
  cases lbl <;> rcases res with _ | rs <;> rcases cn with _ | n <;>
    rcases cl with _ | l <;> simp_all [childPairsOf, childEvents]

/-- Claim C4, witness: the amended theorem at the concrete descriptor whose single
child entry has neither `name` nor `label`, from the fresh operator. -/
theorem setJSON_childMissingField_witness :
    ((setJSONDescription ("d")
        (some (JDoc.mk none none (some [JEntry.mk none none])))
        initState).1).childPairs = [] ∧
    ((setJSONDescription ("d")
        (some (JDoc.mk none none (some [JEntry.mk none none])))
        initState).1).hasChildDataSource = true ∧
    Event.logNoChildName ∈
      (setJSONDescription ("d")
        (some (JDoc.mk none none (some [JEntry.mk none none])))
        initState).2 := by
  have h := setJSON_childMissingField ("d")
    (JDoc.mk none none (some [JEntry.mk none none])) (JEntry.mk none none) []
    initState (by decide) rfl (Or.inl rfl)
  exact ⟨h.1, h.2.1, h.2.2.1 rfl⟩

/-- Claim C6: for every descriptor whose `results` array has N entries, a
successful `setJSONDescription` parse leaves exactly N Result slots, in
declared order, each slot carrying the `name` and `label` of its entry (a
missing half of an entry leaves that half of the slot unset). -/
theorem setJSON_results_slots (str : String) (root : JDoc) (rs : List JEntry)
    (s : OpState) (hne : s.jsonDescription ≠ str)
    (hrs : root.results = some rs) :
    ((setJSONDescription str (some root) s).1).results =
      rs.map (fun e => ResultSlot.mk e.name e.label) ∧
    ((setJSONDescription str (some root) s).1).results.length = rs.length := by
  rcases root with ⟨lbl, res, ch⟩
  dsimp only at hrs
  subst hrs
  unfold setJSONDescription
  rw [if_neg hne]
  cases lbl <;> rcases ch with _ | (_ | ⟨c0, cs⟩) <;>
    simp_all [fillSlots_replicate]

/-- Claim C6, witness: a two-entry `results` array, the second entry missing both
halves: two slots result, in order, with the missing halves unset. -/
theorem setJSON_results_slots_witness :
    ((setJSONDescription ("d2")
        (some (JDoc.mk none
          (some [JEntry.mk (some ("hist")) (some ("Histogram")),
                 JEntry.mk none none]) none))
        initState).1).results =
      [ResultSlot.mk (some ("hist")) (some ("Histogram")),
       ResultSlot.mk none none] ∧
    ((setJSONDescription ("d2")
        (some (JDoc.mk none
          (some [JEntry.mk (some ("hist")) (some ("Histogram")),
                 JEntry.mk none none]) none))
        initState).1).results.length =
      [JEntry.mk (some ("hist")) (some ("Histogram")),
       JEntry.mk none none].length := by
  have h := setJSON_results_slots ("d2")
    (JDoc.mk none
      (some [JEntry.mk (some ("hist")) (some ("Histogram")),
             JEntry.mk none none]) none)
    [JEntry.mk (some ("hist")) (some ("Histogram")), JEntry.mk none none]
    initState (by decide) rfl
  exact ⟨h.1, h.2⟩

/-- Claim C7, counterexample: for a descriptor declaring three children (so two
entries are discarded), the only logged event is the warning carrying the
found count 3 — no warning names the discarded count 2. -/
theorem setJSON_multiChildren_cex :
    (setJSONDescription ("d3")
        (some (JDoc.mk none none
          (some [JEntry.mk (some ("a")) (some ("A")),
                 JEntry.mk (some ("b")) (some ("B")),
                 JEntry.mk (some ("c")) (some ("C"))])))
        initState).2 = [Event.warnMultipleChildren 3] ∧
    Event.warnMultipleChildren 2 ∉
      (setJSONDescription ("d3")
        (some (JDoc.mk none none
          (some [JEntry.mk (some ("a")) (some ("A")),
                 JEntry.mk (some ("b")) (some ("B")),
                 JEntry.mk (some ("c")) (some ("C"))])))
        initState).2 := by
  decide

/-- Claim C7, amended: for every descriptor whose `children` array has length
greater than 1, only the entry at index 0 configures the child-dataset
expectation, a warning carrying the found count (from which the discarded
count is found − 1) is logged, and the parse still succeeds — the document
is installed and no parse-failure diagnostic is logged. -/
theorem setJSON_multiChildren (str : String) (root : JDoc) (c0 : JEntry)
    (rest : List JEntry) (s : OpState) (hne : s.jsonDescription ≠ str)
    (hch : root.children = some (c0 :: rest)) (hrest : rest ≠ []) :
    Event.warnMultipleChildren (c0 :: rest).length ∈
      (setJSONDescription str (some root) s).2 ∧
    ((setJSONDescription str (some root) s).1).childPairs = childPairsOf c0 ∧
    ((setJSONDescription str (some root) s).1).hasChildDataSource = true ∧
    Event.logJsonParseFail ∉ (setJSONDescription str (some root) s).2 ∧
    ((setJSONDescription str (some root) s).1).jsonDescription = str := by
  rcases root with ⟨lbl, res, ch⟩
  dsimp only at hch
  subst hch
  rcases rest with _ | ⟨c1, rest⟩
  · exact absurd rfl hrest
  unfold setJSONDescription
  rw [if_neg hne]
  rcases c0 with ⟨cn, cl⟩
  cases lbl <;> rcases res with _ | rs <;> rcases cn with _ | n <;>
    rcases cl with _ | l <;> simp_all [childPairsOf, childEvents]

/-- Claim C7, witness: the amended theorem at the concrete three-child descriptor
from the fresh operator. -/
theorem setJSON_multiChildren_witness :
    Event.warnMultipleChildren
        [JEntry.mk (some ("a")) (some ("A")), JEntry.mk (some ("b")) (some ("B")),
         JEntry.mk (some ("c")) (some ("C"))].length ∈
      (setJSONDescription ("d3")
        (some (JDoc.mk none none
          (some [JEntry.mk (some ("a")) (some ("A")),
                 JEntry.mk (some ("b")) (some ("B")),
                 JEntry.mk (some ("c")) (some ("C"))])))
        initState).2 ∧
    ((setJSONDescription ("d3")
        (some (JDoc.mk none none
          (some [JEntry.mk (some ("a")) (some ("A")),
                 JEntry.mk (some ("b")) (some ("B")),
                 JEntry.mk (some ("c")) (some ("C"))])))
        initState).1).childPairs =
      childPairsOf (JEntry.mk (some ("a")) (some ("A"))) := by
  have h := setJSON_multiChildren ("d3")
    (JDoc.mk none none
      (some [JEntry.mk (some ("a")) (some ("A")),
             JEntry.mk (some ("b")) (some ("B")),
             JEntry.mk (some ("c")) (some ("C"))]))
    (JEntry.mk (some ("a")) (some ("A")))
    [JEntry.mk (some ("b")) (some ("B")), JEntry.mk (some ("c")) (some ("C"))]
    initState (by decide) rfl (by decide)
  exact ⟨h.1, h.2.1⟩

end Tomviz
